import Mathlib

/-!
# gsts — credential-exchange and session-lifecycle engine: shallow embedding

This development embeds the core of the `gsts` credential broker in Lean 4 and
proves (or refutes) the specification claims about it.  The embedding follows
the JavaScript source:

* `Role`, `Session` — the data entities (`role.js`, `session.js`).
* `Parser` — the SAML `Role`-attribute matching (`parser.js`), including a
  faithful character-level model of the two ARN regular expressions.
* `SharedFile` — the `CredentialsManager` revision that writes the shared AWS
  credentials file and merges profile sections
  (`getSessionExpirationFromCredentials`, `saveCredentials`).
* `CacheFile` — the newest `CredentialsManager` revision (cache-directory
  credentials file): `prepareRoleWithSAML`, `assumeRoleWithSAML`,
  `saveCredentials`, `loadCredentials`.

JavaScript conventions are modelled explicitly: optional / `undefined` values
become `Option`, JavaScript truthiness of strings and numbers becomes
`truthyStr` / `truthyOptNat`, timestamps are milliseconds since the epoch as
`Int`, and the `ini` file is modelled at the parsed level as an association
list of profile sections.  The STS service is an oracle function from requests
to either a credential bundle or an error, so that the exact sequence of
network calls made by one invocation can be observed.
-/

/-- JavaScript truthiness of an optional string: `undefined` and `""` are falsy. -/
def truthyStr : Option String → Bool
  | none => false
  | some s => !s.isEmpty

/-- JavaScript truthiness of an optional number: `undefined` and `0` are falsy. -/
def truthyOptNat : Option Nat → Bool
  | none => false
  | some n => n != 0

/-- Does `s` start with the character list `pat` (exact, case-sensitive)? -/
def startsWithChars : List Char → List Char → Bool
  | [], _ => true
  | _ :: _, [] => false
  | p :: ps, c :: cs => p == c && startsWithChars ps cs

/-- Substring test on character lists (used for JavaScript `/pat/.test(msg)`). -/
def charsContain (pat : List Char) : List Char → Bool
  | [] => pat.isEmpty
  | c :: cs => startsWithChars pat (c :: cs) || charsContain pat cs

/-- JavaScript `/durationSeconds/.test(msg)`-style substring test. -/
def containsSub (msg pat : String) : Bool :=
  charsContain pat.data msg.data

/-- Numeric value of a digit run (JavaScript `Number(matches[1])`). -/
def digitsToNat (ds : List Char) : Nat :=
  ds.foldl (fun acc c => acc * 10 + (c.toNat - 48)) 0

/-- The literal part of `REGEX_PATTERN_DURATION_SECONDS =
    /value less than or equal to ([0-9]+)/` (case-sensitive, no flags). -/
def capLit : List Char := "value less than or equal to ".data

/-- First match of `REGEX_PATTERN_DURATION_SECONDS` over a character list:
    at each position try the literal followed by at least one digit, capturing
    the maximal digit run; otherwise move one character right. -/
def findCap : List Char → Option Nat
  | [] => none
  | c :: cs =>
    if startsWithChars capLit (c :: cs) then
      let rest := ((c :: cs).drop capLit.length).takeWhile Char.isDigit
      match rest with
      | [] => findCap cs
      | _ :: _ => some (digitsToNat rest)
    else findCap cs

/-- `message.match(REGEX_PATTERN_DURATION_SECONDS)` — the advertised maximum
    duration extracted from a validation error message, if any. -/
def extractCap (msg : String) : Option Nat :=
  findCap msg.data

/-- `Role` (`role.js`): one assumable role parsed from a SAML assertion.
    `sessionDuration` is the optional IdP-declared session duration. -/
structure Role where
  name : String
  roleArn : String
  principalArn : String
  sessionDuration : Option Nat
deriving DecidableEq

/-- `Session` (`session.js`): a materialized credential set.  Fields that the
    JavaScript object may hold as `undefined` are `Option`; `expiresAt` is the
    `Date` value as milliseconds since the epoch. -/
structure Session where
  accessKeyId : Option String
  secretAccessKey : Option String
  sessionToken : Option String
  expiresAt : Option Int
  role : Option Role
  samlAssertion : Option String
deriving DecidableEq

/-- `expiresAt.getTime()`; the `none` default is unreachable behind the
    truthiness guard in `sessionIsValid`. -/
def sessionGetTime : Option Int → Int
  | none => 0
  | some t => t

/-- `Session.isValid` (`session.js`): false when any credential field is falsy,
    false when the expiry is not strictly in the future, true otherwise.
    Note: no safety delta is applied here. -/
def sessionIsValid (s : Session) (now : Int) : Bool :=
  if !truthyStr s.accessKeyId || !truthyStr s.secretAccessKey
      || !truthyStr s.sessionToken || !(s.expiresAt).isSome then
    false
  else if sessionGetTime s.expiresAt ≤ now then
    false
  else
    true

/-- One profile section of the AWS credentials ini file, at the parsed level.
    Absent keys are `none`; `aws_session_expiration` is the parsed ISO-8601
    timestamp in milliseconds since the epoch. -/
structure ProfileIni where
  aws_access_key_id : Option String
  aws_role_arn : Option String
  aws_role_name : Option String
  aws_role_principal_arn : Option String
  aws_secret_access_key : Option String
  aws_session_expiration : Option Int
  aws_session_token : Option String
  aws_saml_assertion : Option String
deriving DecidableEq

/-- A parsed credentials file: named profile sections in file order. -/
def Credentials : Type := List (String × ProfileIni)

instance : DecidableEq Credentials := by
  unfold Credentials
  infer_instance

/-- Lookup of a profile section, as `credentials[profile]`. -/
def lookupProfile (creds : Credentials) (profile : String) : Option ProfileIni :=
  List.lookup profile creds

/-- `credentials[profile] = {...}` on a JavaScript object: replace the section
    in place when the key exists, append it otherwise. -/
def setProfile (creds : Credentials) (profile : String) (rec : ProfileIni) : Credentials :=
  match creds with
  | [] => [(profile, rec)]
  | (k, v) :: rest =>
    if k = profile then (k, rec) :: rest
    else (k, v) :: setProfile rest profile rec

namespace SharedFile

/-- `SESSION_EXPIRATION_DELTA = 30e3` (milliseconds), the 30-second safety
    buffer of the shared-file `CredentialsManager` revision. -/
def SESSION_EXPIRATION_DELTA : Int := 30000

/-- The data passed to the shared-file `saveCredentials` after a successful
    token exchange. -/
structure SaveData where
  accessKeyId : String
  roleArn : String
  secretAccessKey : String
  sessionExpiration : Int
  sessionToken : String
deriving DecidableEq

/-- The result shape of `getSessionExpirationFromCredentials`. -/
structure ExpirationCheck where
  isValid : Bool
  expiresAt : Option Int
deriving DecidableEq

/-- `CredentialsManager.getSessionExpirationFromCredentials` (shared-file
    revision).  `credentials` is the result of loading the profile section
    (`none` when the file or section is missing); `roleArn` is the optional
    expected role ARN; `now` is `Date.now()` in milliseconds. -/
def getSessionExpirationFromCredentials (credentials : Option ProfileIni)
    (roleArn : Option String) (now : Int) : ExpirationCheck :=
  match credentials with
  | none => ⟨false, none⟩
  | some c =>
    if truthyStr roleArn && !(c.aws_role_arn == roleArn) then
      ⟨false, none⟩
    else
      match c.aws_session_expiration with
      | none => ⟨false, none⟩
      | some exp =>
        if exp - SESSION_EXPIRATION_DELTA > now then
          ⟨true, some (exp - SESSION_EXPIRATION_DELTA)⟩
        else
          ⟨false, some exp⟩

/-- `CredentialsManager.saveCredentials` (shared-file revision): parse the
    existing file (an empty object when it does not exist), replace only the
    target profile's section with the five written keys, and write the result
    back. -/
def saveCredentials (file : Option Credentials) (profile : String) (d : SaveData) :
    Credentials :=
  let credentials := file.getD []
  setProfile credentials profile
    { aws_access_key_id := some d.accessKeyId
      aws_role_arn := some d.roleArn
      aws_role_name := none
      aws_role_principal_arn := none
      aws_secret_access_key := some d.secretAccessKey
      aws_session_expiration := some d.sessionExpiration
      aws_session_token := some d.sessionToken
      aws_saml_assertion := none }

end SharedFile

namespace Parser

/-- Case-insensitive literal match returning the verbatim consumed characters
    and the rest of the input (regex literals under the `/i` flag preserve the
    input's own case in captures). -/
def matchLitCI : List Char → List Char → Option (List Char × List Char)
  | [], s => some ([], s)
  | _ :: _, [] => none
  | l :: ls, c :: cs =>
    if l.toLower == c.toLower then
      match matchLitCI ls cs with
      | some (con, rest) => some (c :: con, rest)
      | none => none
    else none

/-- The shared tail `:iam:[^:]*:[0-9]+:` of both ARN patterns, starting after
    the partition segment: returns the consumed characters and the rest.
    `[^:]*` cannot cross a colon and `[0-9]+` cannot give back a digit and
    still match `:`, so the greedy match is deterministic. -/
def matchIamTail (s : List Char) : Option (List Char × List Char) :=
  match matchLitCI ":iam:".data s with
  | none => none
  | some (c1, r1) =>
    let region := r1.takeWhile (fun c => c ≠ ':')
    match r1.drop region.length with
    | ':' :: r2 =>
      let digits := r2.takeWhile Char.isDigit
      match digits with
      | [] => none
      | _ :: _ =>
        match r2.drop digits.length with
        | ':' :: r3 => some (c1 ++ region ++ [':'] ++ digits ++ [':'], r3)
        | _ => none
    | _ => none

/-- One alternative of `REGEX_PATTERN_ROLE` anchored at a position: the given
    partition literal, then `:iam:[^:]*:[0-9]+:role\/([^,]+)`.  `arnHead` is
    the already-consumed verbatim `arn:`.  Returns `(roleArn, name)`. -/
def roleAttempt (partLit : List Char) (arnHead : List Char) (s : List Char) :
    Option (String × String) :=
  match matchLitCI partLit s with
  | none => none
  | some (cp, r1) =>
    match matchIamTail r1 with
    | none => none
    | some (ct, r2) =>
      match matchLitCI "role/".data r2 with
      | none => none
      | some (cr, r3) =>
        let name := r3.takeWhile (fun c => c ≠ ',')
        match name with
        | [] => none
        | _ :: _ =>
          some (String.mk (arnHead ++ cp ++ ct ++ cr ++ name), String.mk name)

/-- `REGEX_PATTERN_ROLE = /(arn:(aws|aws-us-gov|aws-cn):iam:[^:]*:[0-9]+:role\/([^,]+))/i`
    anchored at one position; the alternatives are tried in the regex's order
    with full backtracking into the tail. -/
def matchRoleAt (s : List Char) : Option (String × String) :=
  match matchLitCI "arn:".data s with
  | none => none
  | some (c1, r1) =>
    match roleAttempt "aws".data c1 r1 with
    | some r => some r
    | none =>
      match roleAttempt "aws-us-gov".data c1 r1 with
      | some r => some r
      | none => roleAttempt "aws-cn".data c1 r1

/-- `REGEX_PATTERN_PRINCIPAL = /(arn:aws:iam:[^:]*:[0-9]+:saml-provider\/[^,]+)/i`
    anchored at one position.  Note: only the standard `aws` partition is
    accepted here. -/
def matchPrincipalAt (s : List Char) : Option String :=
  match matchLitCI "arn:aws".data s with
  | none => none
  | some (c1, r1) =>
    match matchIamTail r1 with
    | none => none
    | some (ct, r2) =>
      match matchLitCI "saml-provider/".data r2 with
      | none => none
      | some (cp, r3) =>
        let value := r3.takeWhile (fun c => c ≠ ',')
        match value with
        | [] => none
        | _ :: _ => some (String.mk (c1 ++ ct ++ cp ++ value))

/-- First match of the role pattern over all starting positions (JavaScript
    `attribute.match(REGEX_PATTERN_ROLE)`). -/
def scanRole : List Char → Option (String × String)
  | [] => none
  | c :: cs =>
    match matchRoleAt (c :: cs) with
    | some r => some r
    | none => scanRole cs

/-- First match of the principal pattern over all starting positions. -/
def scanPrincipal : List Char → Option String
  | [] => none
  | c :: cs =>
    match matchPrincipalAt (c :: cs) with
    | some r => some r
    | none => scanPrincipal cs

/-- One iteration of the `Role`-attribute loop of `Parser.parseSamlResponse`:
    both patterns must match or the value yields no role. -/
def parseRoleValue (attr : String) (idpSessionDuration : Option Nat) :
    Option Role :=
  match scanPrincipal attr.data with
  | none => none
  | some principal =>
    match scanRole attr.data with
    | none => none
    | some (roleArn, name) => some ⟨name, roleArn, principal, idpSessionDuration⟩

/-- The `Role`-attribute loop of `Parser.parseSamlResponse`: values on which
    either pattern fails are skipped (`continue`), the others produce a
    `Role` carrying the assertion-wide session duration. -/
def parseRoleAttributes (attributes : List String) (idpSessionDuration : Option Nat) :
    List Role :=
  match attributes with
  | [] => []
  | attr :: rest =>
    match parseRoleValue attr idpSessionDuration with
    | none => parseRoleAttributes rest idpSessionDuration
    | some role => role :: parseRoleAttributes rest idpSessionDuration

end Parser

/-- The sort order used by `prepareRoleWithSAML`'s comparator: the comparator
    returns a negative, zero or positive number by comparing `roleArn`
    lexicographically (JavaScript `<`/`>` on strings), so the (stable)
    JavaScript sort orders by `roleArn`.  The string order is the
    lexicographic order on the character sequence. -/
def roleLe (a b : Role) : Prop := a.roleArn.data ≤ b.roleArn.data

/-- Strict `roleArn` order, used to state uniqueness of the sorted result. -/
def roleLt (a b : Role) : Prop := a.roleArn.data < b.roleArn.data

instance : DecidableRel roleLe :=
  fun a b => inferInstanceAs (Decidable (a.roleArn.data ≤ b.roleArn.data))

instance : IsTotal Role roleLe := ⟨fun a b => le_total a.roleArn.data b.roleArn.data⟩

instance : IsTrans Role roleLe := ⟨fun _ _ _ h₁ h₂ => le_trans h₁ h₂⟩

instance : IsAntisymm Role roleLt := ⟨fun _ _ h₁ h₂ => ((lt_asymm h₁) h₂).elim⟩

instance {ε α : Type} [DecidableEq ε] [DecidableEq α] : DecidableEq (Except ε α) :=
  fun a b =>
    match a, b with
    | .ok x, .ok y =>
      if h : x = y then .isTrue (congrArg Except.ok h)
      else .isFalse (fun hh => h (Except.ok.inj hh))
    | .error x, .error y =>
      if h : x = y then .isTrue (congrArg Except.error h)
      else .isFalse (fun hh => h (Except.error.inj hh))
    | .ok _, .error _ => .isFalse (fun hh => Except.noConfusion hh)
    | .error _, .ok _ => .isFalse (fun hh => Except.noConfusion hh)

/-- `roles.sort(comparator)`: a stable sort by ascending `roleArn` (insertion
    sort keeps the input order of elements with equal `roleArn`, as the
    ECMAScript stable sort does).  Sorting is unconditional: the JavaScript
    guard `if (roles && roles.length)` only skips the no-op empty sort. -/
def sortRoles (roles : List Role) : List Role :=
  List.insertionSort roleLe roles

namespace CacheFile

/-- The result record of `prepareRoleWithSAML`. -/
structure PrepareResult where
  roleToAssume : Option Role
  availableRoles : List Role
  samlAssertion : String
deriving DecidableEq

/-- `CredentialsManager.prepareRoleWithSAML` (newest revision) after the
    parser has produced `roles` and `samlAssertion`.  The `.error` case is
    `throw new RoleNotFoundError(roles)`, whose payload is the (sorted, full)
    role list. -/
def prepareRoleWithSAML (roles : List Role) (samlAssertion : String)
    (customRoleArn : Option String) : Except (List Role) PrepareResult :=
  let sorted := sortRoles roles
  if truthyStr customRoleArn then
    match sorted.find? (fun role => some role.roleArn == customRoleArn) with
    | none => .error sorted
    | some customRole =>
      .ok { roleToAssume := some customRole
            availableRoles := sorted
            samlAssertion := samlAssertion }
  else
    .ok { roleToAssume := if sorted.length = 1 then sorted.head? else none
          availableRoles := sorted
          samlAssertion := samlAssertion }

/-- The request sent with `AssumeRoleWithSAMLCommand`; `DurationSeconds` is
    absent when the JavaScript value is `undefined`. -/
structure AssumeRoleRequest where
  DurationSeconds : Option Nat
  PrincipalArn : String
  RoleArn : String
  SAMLAssertion : String
deriving DecidableEq

/-- An error rejected by the STS client (`e.code`, `e.message`). -/
structure StsError where
  code : Option String
  message : String
deriving DecidableEq

/-- The expiring credential bundle of a successful STS response
    (`Expiration` as milliseconds since the epoch). -/
structure StsCredentials where
  accessKeyId : String
  secretAccessKey : String
  sessionToken : String
  expiration : Int
deriving DecidableEq

/-- The STS service as a deterministic oracle from requests to responses. -/
def StsOracle : Type := AssumeRoleRequest → Except StsError StsCredentials

/-- What one invocation of `assumeRoleWithSAML` produces: a session, a raised
    error, or JavaScript `undefined` (the bare `return;` in the catch block). -/
inductive AssumeOutcome
  | ok (session : Session)
  | err (e : StsError)
  | undefinedReturn
deriving DecidableEq

/-- One invocation of `assumeRoleWithSAML`, observed: its outcome, the exact
    sequence of STS requests it sent, and whether the duration warning was
    logged. -/
structure AssumeResult where
  outcome : AssumeOutcome
  calls : List AssumeRoleRequest
  warned : Bool
deriving DecidableEq

/-- The request object built by `assumeRoleWithSAML` for a given duration. -/
def mkAssumeRequest (samlAssertion : String) (role : Role) (d : Option Nat) :
    AssumeRoleRequest :=
  { DurationSeconds := d
    PrincipalArn := role.principalArn
    RoleArn := role.roleArn
    SAMLAssertion := samlAssertion }

/-- The `Session` constructed from a successful STS response (the constructor
    is also handed the profile, which the `Session` class does not store). -/
def mkSession (role : Role) (samlAssertion : String) (creds : StsCredentials) :
    Session :=
  { accessKeyId := some creds.accessKeyId
    secretAccessKey := some creds.secretAccessKey
    sessionToken := some creds.sessionToken
    expiresAt := some creds.expiration
    role := some role
    samlAssertion := some samlAssertion }

/-- The final `stsClient.send` of `assumeRoleWithSAML` (the send outside the
    `if (customSessionDuration)` block) and the construction of the returned
    session; `callsSoFar`/`warned` carry the observations made before it. -/
def finalSend (sts : StsOracle) (samlAssertion : String) (role : Role)
    (d : Option Nat) (callsSoFar : List AssumeRoleRequest) (warned : Bool) :
    AssumeResult :=
  let req := mkAssumeRequest samlAssertion role d
  match sts req with
  | .ok creds => ⟨.ok (mkSession role samlAssertion creds), callsSoFar ++ [req], warned⟩
  | .error e => ⟨.err e, callsSoFar ++ [req], warned⟩

/-- `CredentialsManager.assumeRoleWithSAML` (newest revision).  When a truthy
    `customSessionDuration` is given, a first probe `send` is made with it;
    a rejection that is not a `ValidationError` mentioning `durationSeconds`
    is rethrown; such a rejection without an extractable maximum makes the
    function `return;` (`undefined`); otherwise the session duration is capped
    at the extracted maximum with a warning.  In every remaining case the
    final `send` is executed and its credential bundle forms the returned
    session (persisting it via `saveCredentials` is modelled separately). -/
def assumeRoleWithSAML (sts : StsOracle) (samlAssertion : String) (role : Role)
    (customSessionDuration : Option Nat) : AssumeResult :=
  if truthyOptNat customSessionDuration then
    let d := customSessionDuration.getD 0
    let req₁ := mkAssumeRequest samlAssertion role (some d)
    match sts req₁ with
    | .ok _ =>
      finalSend sts samlAssertion role (some d) [req₁] false
    | .error e =>
      if !(e.code == some "ValidationError") || !(containsSub e.message "durationSeconds") then
        ⟨.err e, [req₁], false⟩
      else
        match extractCap e.message with
        | none => ⟨.undefinedReturn, [req₁], false⟩
        | some m => finalSend sts samlAssertion role (some m) [req₁] true
  else
    finalSend sts samlAssertion role role.sessionDuration [] false

/-- `session.toIni(profile)`'s single section (newest `session.js`). -/
def sessionToIni (s : Session) : ProfileIni :=
  { aws_access_key_id := s.accessKeyId
    aws_role_arn := (s.role).map Role.roleArn
    aws_role_name := (s.role).map Role.name
    aws_role_principal_arn := (s.role).map Role.principalArn
    aws_secret_access_key := s.secretAccessKey
    aws_session_expiration := s.expiresAt
    aws_session_token := s.sessionToken
    aws_saml_assertion := s.samlAssertion }

/-- `CredentialsManager.saveCredentials` (newest revision): the cache
    credentials file is overwritten with `ini.encode(session.toIni(profile))`,
    i.e. with the target profile's section alone — the previous file contents
    are not read. -/
def saveCredentials (profile : String) (session : Session) : Credentials :=
  [(profile, sessionToIni session)]

/-- `Session.fromIni` followed by the `Session`/`Role` constructor guards:
    the `Role` constructor throws when the name, role ARN or principal ARN is
    falsy, so those records produce no session (`none`). -/
def sessionFromIni (c : ProfileIni) : Option Session :=
  if truthyStr c.aws_role_name && truthyStr c.aws_role_arn
      && truthyStr c.aws_role_principal_arn then
    some
      { accessKeyId := c.aws_access_key_id
        secretAccessKey := c.aws_secret_access_key
        sessionToken := c.aws_session_token
        expiresAt := c.aws_session_expiration
        role := some
          { name := c.aws_role_name.getD ""
            roleArn := c.aws_role_arn.getD ""
            principalArn := c.aws_role_principal_arn.getD ""
            sessionDuration := none }
        samlAssertion := c.aws_saml_assertion }
  else
    none

/-- How a `loadCredentials` call ends. -/
inductive LoadResult
  | fileError
  | profileMissing (profile : String)
  | badRecord
  | invalidRoleArn
  | ok (s : Session)
deriving DecidableEq

/-- `session.role.roleArn` as tested for truthiness by `loadCredentials`. -/
def sessionRoleArn (s : Session) : Option String :=
  (s.role).map Role.roleArn

/-- `CredentialsManager.loadCredentials` (newest revision).  `file` is the
    parsed credentials file (`none` when reading threw, e.g. `ENOENT` — the
    error is rethrown).  Note the role check: the code throws a generic
    `Error('Invalid role ARN')` whenever `roleArn && session.role.roleArn`
    are both truthy, without comparing the two values. -/
def loadCredentials (file : Option Credentials) (profile : String)
    (roleArn : Option String) : LoadResult :=
  match file with
  | none => .fileError
  | some credentials =>
    match lookupProfile credentials profile with
    | none => .profileMissing profile
    | some sec =>
      match sessionFromIni sec with
      | none => .badRecord
      | some session =>
        if truthyStr roleArn && truthyStr (sessionRoleArn session) then
          .invalidRoleArn
        else
          .ok session

end CacheFile

/-! ## Concrete fixtures used by counterexamples and witnesses -/

/-- A role without an IdP-declared session duration. -/
def roleFoobar : Role :=
  { name := "Foobar"
    roleArn := "arn:aws:iam::123456789:role/Foobar"
    principalArn := "arn:aws:iam::123456789:saml-provider/GSuite"
    sessionDuration := none }

/-- A role carrying the IdP-declared session duration `10000`. -/
def roleWithIdpDuration : Role :=
  { roleFoobar with sessionDuration := some 10000 }

/-- A fixed credential bundle returned by the STS oracles below. -/
def stsCreds : CacheFile.StsCredentials :=
  { accessKeyId := "AAAAAABBBBBBCCCCCCDDDDDD"
    secretAccessKey := "0nKJNoiu9oSJBjkb"
    sessionToken := "DMMDnnnnKAkjSJi"
    expiration := 1587292339000 }

/-- An oracle that accepts every exchange request. -/
def stsAlwaysOk : CacheFile.StsOracle := fun _ => .ok stsCreds

/-- The duration-cap validation error message produced by STS, advertising a
    maximum of `43200` seconds. -/
def capMsg : String :=
  "1 validation error detected: Value '60000' at 'durationSeconds' failed to satisfy constraint: Member must have value less than or equal to 43200"

/-- The duration-cap validation error. -/
def capErr : CacheFile.StsError :=
  { code := some "ValidationError", message := capMsg }

/-- An oracle that rejects every request with the duration-cap error unless
    the request's duration is the advertised maximum `43200`. -/
def stsCapOracle : CacheFile.StsOracle := fun req =>
  if req.DurationSeconds == some 43200 then .ok stsCreds else .error capErr

/-- A validation error that mentions `durationSeconds` but advertises no
    numeric maximum. -/
def noCapErr : CacheFile.StsError :=
  { code := some "ValidationError", message := "durationSeconds is invalid" }

/-- An oracle that rejects every request with `noCapErr`. -/
def stsNoCapOracle : CacheFile.StsOracle := fun _ => .error noCapErr

/-- A non-validation rejection. -/
def accessDeniedErr : CacheFile.StsError :=
  { code := some "AccessDeniedException", message := "Access denied" }

/-- An oracle that rejects every request with `accessDeniedErr`. -/
def stsDenyOracle : CacheFile.StsOracle := fun _ => .error accessDeniedErr

/-- Two distinct roles sharing one `roleArn` (one role trusted through two
    SAML providers), to probe order dependence of the sort. -/
def dupArnRoleP : Role :=
  { name := "X"
    roleArn := "arn:aws:iam::111111111:role/X"
    principalArn := "arn:aws:iam::111111111:saml-provider/ProviderP"
    sessionDuration := none }

/-- Like `dupArnRoleP` with the other provider. -/
def dupArnRoleQ : Role :=
  { dupArnRoleP with principalArn := "arn:aws:iam::111111111:saml-provider/ProviderQ" }

/-- A fully-populated session expiring 10 seconds after the epoch. -/
def sessionNearExpiry : Session :=
  { accessKeyId := some "AAAAAABBBBBBCCCCCCDDDDDD"
    secretAccessKey := some "0nKJNoiu9oSJBjkb"
    sessionToken := some "DMMDnnnnKAkjSJi"
    expiresAt := some 10000
    role := some roleFoobar
    samlAssertion := some "T2NjdXB5IE1hcnMK" }

/-- The stored profile section matching `sessionNearExpiry`. -/
def profileNearExpiry : ProfileIni :=
  { aws_access_key_id := some "AAAAAABBBBBBCCCCCCDDDDDD"
    aws_role_arn := some "arn:aws:iam::123456789:role/Foobar"
    aws_role_name := some "Foobar"
    aws_role_principal_arn := some "arn:aws:iam::123456789:saml-provider/GSuite"
    aws_secret_access_key := some "0nKJNoiu9oSJBjkb"
    aws_session_expiration := some 10000
    aws_session_token := some "DMMDnnnnKAkjSJi"
    aws_saml_assertion := some "T2NjdXB5IE1hcnMK" }

/-- A credentials file holding one unrelated profile `"a"`. -/
def fileWithProfileA : Credentials := [("a", profileNearExpiry)]

/-- The credentials file holding the `"test"` profile, as written by the
    cache-file `saveCredentials` for `sessionNearExpiry`. -/
def fileWithProfileTest : Credentials :=
  [("test", CacheFile.sessionToIni sessionNearExpiry)]

/-- A well-formed gov-cloud `Role` attribute value: both the principal ARN and
    the role ARN use the `aws-us-gov` partition. -/
def govRoleAttr : String :=
  "arn:aws-us-gov:iam::123456789:saml-provider/GSuite,arn:aws-us-gov:iam:us-gov-west-1:123456789:role/Foobar"

/-- A `Role` attribute value with the role ARN in an arbitrary partition `p`
    and the principal ARN in the standard partition. -/
def mkPartitionAttr (p : String) : String :=
  "arn:" ++ p ++ ":iam:eu-west-1:123456789012:role/Foobar,arn:aws:iam::123456789:saml-provider/GSuite"

/-- The role ARN embedded in `mkPartitionAttr p`. -/
def mkPartitionArn (p : String) : String :=
  "arn:" ++ p ++ ":iam:eu-west-1:123456789012:role/Foobar"

/-- The exchange result data saved under profile `"b"` in witnesses. -/
def saveDataB : SharedFile.SaveData :=
  { accessKeyId := "EEEEEEFFFFFF"
    roleArn := "arn:aws:iam::987654321:role/Foobiz"
    secretAccessKey := "anotherSecret"
    sessionExpiration := 1587292339000
    sessionToken := "anotherToken" }

/-- A second role with a `roleArn` distinct from `roleFoobar`'s. -/
def roleFoobiz : Role :=
  { name := "Foobiz"
    roleArn := "arn:aws:iam::987654321:role/Foobiz"
    principalArn := "arn:aws:iam::987654321:saml-provider/GSuite"
    sessionDuration := none }

/-! ## Helper lemmas -/

/-- The final `send` appends exactly one request and keeps the warning flag. -/
theorem finalSend_calls (sts : CacheFile.StsOracle) (saml : String) (role : Role)
    (d : Option Nat) (callsSoFar : List CacheFile.AssumeRoleRequest) (warned : Bool) :
    (CacheFile.finalSend sts saml role d callsSoFar warned).calls
        = callsSoFar ++ [CacheFile.mkAssumeRequest saml role d]
    ∧ (CacheFile.finalSend sts saml role d callsSoFar warned).warned = warned := by
  rcases h : sts (CacheFile.mkAssumeRequest saml role d) with creds | e <;>
    simp [CacheFile.finalSend, h]

/-- A successful final `send` produces the session built from its bundle. -/
theorem finalSend_ok (sts : CacheFile.StsOracle) (saml : String) (role : Role)
    (d : Option Nat) (callsSoFar : List CacheFile.AssumeRoleRequest) (warned : Bool)
    (creds : CacheFile.StsCredentials)
    (h : sts (CacheFile.mkAssumeRequest saml role d) = .ok creds) :
    CacheFile.finalSend sts saml role d callsSoFar warned
      = ⟨.ok (CacheFile.mkSession role saml creds),
         callsSoFar ++ [CacheFile.mkAssumeRequest saml role d], warned⟩ := by
  simp [CacheFile.finalSend, h]

/-- Updating one profile section leaves the lookup of any other profile
    unchanged. -/
theorem lookup_setProfile_ne (creds : Credentials) (p q : String) (rec : ProfileIni)
    (h : q ≠ p) :
    lookupProfile (setProfile creds p rec) q = lookupProfile creds q := by
  have hbeq : (q == p) = false := beq_eq_false_iff_ne.mpr h
  induction creds with
  | nil =>
    simp [setProfile, lookupProfile, List.lookup, hbeq]
  | cons kv rest ih =>
    obtain ⟨k, v⟩ := kv
    by_cases hk : k = p
    · subst hk
      simp [setProfile, lookupProfile, List.lookup, hbeq]
    · simp only [setProfile, if_neg hk]
      simp only [lookupProfile, List.lookup] at ih ⊢
      by_cases hq : (q == k) = true
      · simp [hq]
      · simp only [Bool.not_eq_true] at hq
        simp [hq, ih]

/-- The sorted role list is a permutation of the input. -/
theorem sortRoles_perm (roles : List Role) : (sortRoles roles).Perm roles :=
  List.perm_insertionSort roleLe roles

/-- The sorted role list is sorted by ascending `roleArn`. -/
theorem sortRoles_sorted (roles : List Role) : List.Sorted roleLe (sortRoles roles) :=
  List.sorted_insertionSort roleLe roles

/-- A `roleLe`-sorted list whose `roleArn`s are pairwise distinct is sorted
    strictly. -/
theorem sorted_strict_of_nodup (m : List Role) (hs : List.Sorted roleLe m)
    (hnd : (m.map Role.roleArn).Nodup) : List.Sorted roleLt m := by
  have hnd' : m.Pairwise (fun a b : Role => a.roleArn ≠ b.roleArn) :=
    List.pairwise_map.mp hnd
  refine (hs.and hnd').imp ?_
  rintro a b ⟨hle, hne⟩
  have hdata : a.roleArn.data ≠ b.roleArn.data := by
    intro hd
    exact hne (congrArg String.mk hd)
  exact lt_of_le_of_ne hle hdata

/-- With pairwise-distinct `roleArn`s the sorted list depends only on the
    multiset of roles: permuted inputs sort identically. -/
theorem sortRoles_eq_of_perm (l₁ l₂ : List Role) (hp : l₁.Perm l₂)
    (hnd : (l₁.map Role.roleArn).Nodup) : sortRoles l₁ = sortRoles l₂ := by
  have hnd₁ : ((sortRoles l₁).map Role.roleArn).Nodup :=
    (((sortRoles_perm l₁).map Role.roleArn).nodup_iff).mpr hnd
  have hnd₂ : ((sortRoles l₂).map Role.roleArn).Nodup :=
    (((sortRoles_perm l₂).map Role.roleArn).nodup_iff).mpr
      (((hp.map Role.roleArn).nodup_iff).mp hnd)
  have hperm : (sortRoles l₁).Perm (sortRoles l₂) :=
    (sortRoles_perm l₁).trans (hp.trans (sortRoles_perm l₂).symm)
  exact List.eq_of_perm_of_sorted hperm
    (sorted_strict_of_nodup _ (sortRoles_sorted l₁) hnd₁)
    (sorted_strict_of_nodup _ (sortRoles_sorted l₂) hnd₂)

/-! ## Claim theorems -/

/-- C10: `Session.isValid` is total — on every `Session` value it evaluates to
    a boolean — and it returns `false` whenever `accessKeyId`,
    `secretAccessKey`, `sessionToken` or `expiresAt` is absent, so a session
    with missing credential fields is never treated as valid. -/
theorem sessionIsValid_total_missing_fields (s : Session) (now : Int) :
    (sessionIsValid s now = true ∨ sessionIsValid s now = false)
    ∧ (s.accessKeyId = none ∨ s.secretAccessKey = none ∨ s.sessionToken = none
        ∨ s.expiresAt = none → sessionIsValid s now = false) := by
  constructor
  · cases h : sessionIsValid s now
    · exact Or.inr rfl
    · exact Or.inl rfl
  · intro h
    rcases h with h | h | h | h <;> simp [sessionIsValid, h, truthyStr]

/-- Witness for `sessionIsValid_total_missing_fields` at a session lacking its
    access key. -/
theorem sessionIsValid_total_missing_fields_witness :
    sessionIsValid { sessionNearExpiry with accessKeyId := none } 0 = false :=
  (sessionIsValid_total_missing_fields { sessionNearExpiry with accessKeyId := none } 0).2
    (Or.inl rfl)

/-- C4 counterexample: at `now = 0`, a record expiring at `10000` ms is
    reported invalid by the store-level check (as the 30-second delta rule
    dictates), yet `Session.isValid` reports the same expiry as valid — the
    delta rule does not govern `Session.isValid`. -/
theorem sessionValidity_delta_counterexample :
    (SharedFile.getSessionExpirationFromCredentials (some profileNearExpiry) none 0).isValid
        = false
    ∧ sessionIsValid sessionNearExpiry 0 = true
    ∧ ¬ ((10000 : Int) - SharedFile.SESSION_EXPIRATION_DELTA > 0) := by
  refine ⟨by decide, by decide, by decide⟩

/-- C4 (amended): the store-level check reports a record valid iff its
    expiration minus the fixed 30-second delta is strictly later than the
    current time; `Session.isValid` (with all credential fields present)
    instead reports a session valid iff its expiration is strictly later than
    the current time, with no safety delta. -/
theorem validity_rules (c : ProfileIni) (exp now t : Int) (s : Session)
    (hc : c.aws_session_expiration = some exp)
    (ha : truthyStr s.accessKeyId = true) (hs : truthyStr s.secretAccessKey = true)
    (ht : truthyStr s.sessionToken = true) (he : s.expiresAt = some t) :
    ((SharedFile.getSessionExpirationFromCredentials (some c) none now).isValid = true
        ↔ exp - SharedFile.SESSION_EXPIRATION_DELTA > now)
    ∧ (sessionIsValid s now = true ↔ t > now) := by
  constructor
  · have hform : SharedFile.getSessionExpirationFromCredentials (some c) none now
        = if exp - SharedFile.SESSION_EXPIRATION_DELTA > now
          then ⟨true, some (exp - SharedFile.SESSION_EXPIRATION_DELTA)⟩
          else ⟨false, some exp⟩ := by
      simp [SharedFile.getSessionExpirationFromCredentials, truthyStr, hc]
    rw [hform]
    split_ifs with hgt
    · simp [hgt]
    · simp [hgt]
  · have hform : sessionIsValid s now = if t ≤ now then false else true := by
      simp [sessionIsValid, ha, hs, ht, he, sessionGetTime]
    rw [hform]
    split_ifs with hle
    · constructor
      · intro hfalse
        exact absurd hfalse (by simp)
      · intro hgt
        exact absurd hgt (not_lt.mpr hle)
    · constructor
      · intro _
        omega
      · intro _
        rfl

/-- Witness for `validity_rules` at the near-expiry fixtures and `now = 0`. -/
theorem validity_rules_witness :
    (((SharedFile.getSessionExpirationFromCredentials (some profileNearExpiry) none 0).isValid
          = true ↔ (10000 : Int) - SharedFile.SESSION_EXPIRATION_DELTA > 0)
      ∧ (sessionIsValid sessionNearExpiry 0 = true ↔ (10000 : Int) > 0)) :=
  validity_rules profileNearExpiry 10000 0 10000 sessionNearExpiry rfl (by decide)
    (by decide) (by decide) rfl

/-- C5 counterexample: the newest `saveCredentials` writes only the target
    profile's section, so a file previously holding profile `"a"` no longer
    contains it after profile `"b"` is saved — `"a"` is not preserved. -/
theorem saveCredentials_overwrite_counterexample :
    lookupProfile fileWithProfileA "a" = some profileNearExpiry
    ∧ CacheFile.saveCredentials "b" sessionNearExpiry
        = [("b", CacheFile.sessionToIni sessionNearExpiry)]
    ∧ lookupProfile (CacheFile.saveCredentials "b" sessionNearExpiry) "a" = none := by
  refine ⟨by decide, rfl, by decide⟩

/-- C5 (amended): in the shared-file revision, saving a profile replaces only
    that profile's section and every other profile's section is unchanged on
    reload; the newest (cache-file) revision instead overwrites the whole file
    with the target profile's section alone, so no other profile survives a
    save. -/
theorem saveCredentials_profile_frame (file : Option Credentials) (p q : String)
    (d : SharedFile.SaveData) (s : Session) (hpq : q ≠ p) :
    lookupProfile (SharedFile.saveCredentials file p d) q
        = lookupProfile (file.getD []) q
    ∧ lookupProfile (CacheFile.saveCredentials p s) q = none := by
  constructor
  · exact lookup_setProfile_ne (file.getD []) p q _ hpq
  · simp [CacheFile.saveCredentials, lookupProfile, List.lookup,
      beq_eq_false_iff_ne.mpr hpq]

/-- Witness for `saveCredentials_profile_frame`: saving `"b"` over a file
    holding `"a"`. -/
theorem saveCredentials_profile_frame_witness :
    lookupProfile (SharedFile.saveCredentials (some fileWithProfileA) "b" saveDataB) "a"
        = lookupProfile ((some fileWithProfileA).getD []) "a"
    ∧ lookupProfile (CacheFile.saveCredentials "b" sessionNearExpiry) "a" = none :=
  saveCredentials_profile_frame (some fileWithProfileA) "b" "a" saveDataB
    sessionNearExpiry (by decide)

/-- C6: the newest `loadCredentials` throws whenever an expected role ARN is
    supplied and the stored record has any role ARN at all — even when the two
    are equal, where the claim (and the revision's own test suite) expect the
    stored session to be returned; the mismatch case also raises a generic
    `Error('Invalid role ARN')` rather than a `RoleMismatchError` carrying the
    two ARNs.  This theorem evaluates the code at the failing input: the
    stored and expected ARNs are identical, yet the load fails. -/
theorem loadCredentials_equal_arn_rejected :
    lookupProfile fileWithProfileTest "test" = some (CacheFile.sessionToIni sessionNearExpiry)
    ∧ CacheFile.loadCredentials (some fileWithProfileTest) "test"
        (some "arn:aws:iam::123456789:role/Foobar") = .invalidRoleArn
    ∧ CacheFile.loadCredentials (some fileWithProfileTest) "test" none
        = .ok sessionNearExpiry := by
  refine ⟨by decide, by decide, by decide⟩

/-- C7: with a truthy requested ARN, `prepareRoleWithSAML` matches by exact
    string equality on the fully-qualified ARN.  When no parsed role carries
    the requested ARN it fails with `RoleNotFound` whose payload is the full
    (sorted) role list — a permutation of the parsed list, never a subset —
    and when the call succeeds, `roleToAssume` is a parsed role with exactly
    the requested ARN, returned alongside the full sorted list. -/
theorem prepareRoleWithSAML_exact_match (roles : List Role) (saml arn : String)
    (harn : arn ≠ "") :
    ((∀ r ∈ roles, r.roleArn ≠ arn) →
        CacheFile.prepareRoleWithSAML roles saml (some arn) = .error (sortRoles roles)
        ∧ (sortRoles roles).Perm roles)
    ∧ (∀ res, CacheFile.prepareRoleWithSAML roles saml (some arn) = .ok res →
        ∃ r, res.roleToAssume = some r ∧ r.roleArn = arn ∧ r ∈ roles
          ∧ res.availableRoles = sortRoles roles)
    ∧ ((∃ r ∈ roles, r.roleArn = arn) →
        ∃ res, CacheFile.prepareRoleWithSAML roles saml (some arn) = .ok res) := by
  have hemp : arn.isEmpty = false := by
    cases h : arn.isEmpty
    · rfl
    · exact absurd ((String.isEmpty_iff arn).mp h) harn
  have htr : truthyStr (some arn) = true := by simp [truthyStr, hemp]
  have hunf : CacheFile.prepareRoleWithSAML roles saml (some arn)
      = match (sortRoles roles).find? (fun role => some role.roleArn == some arn) with
        | none => .error (sortRoles roles)
        | some customRole => .ok ⟨some customRole, sortRoles roles, saml⟩ := by
    simp [CacheFile.prepareRoleWithSAML, htr]
  refine ⟨?_, ?_, ?_⟩
  · intro hab
    have hnone : (sortRoles roles).find? (fun role => some role.roleArn == some arn)
        = none := by
      apply List.find?_eq_none.mpr
      intro x hx hbeq
      exact hab x ((sortRoles_perm roles).subset hx) (by simpa using hbeq)
    rw [hunf, hnone]
    exact ⟨rfl, sortRoles_perm roles⟩
  · intro res hres
    rw [hunf] at hres
    rcases hfind : (sortRoles roles).find? (fun role => some role.roleArn == some arn)
      with _ | r
    · rw [hfind] at hres
      cases hres
    · rw [hfind] at hres
      injection hres with h
      subst h
      refine ⟨r, rfl, ?_, ?_, rfl⟩
      · have := List.find?_some hfind
        simpa using this
      · exact (sortRoles_perm roles).subset (List.mem_of_find?_eq_some hfind)
  · rintro ⟨r, hr, hreq⟩
    have hmem : r ∈ sortRoles roles := ((sortRoles_perm roles).mem_iff).mpr hr
    have hsome : ((sortRoles roles).find? (fun role => some role.roleArn == some arn)).isSome := by
      rw [List.find?_isSome]
      exact ⟨r, hmem, by simp [hreq]⟩
    rcases hfind : (sortRoles roles).find? (fun role => some role.roleArn == some arn)
      with _ | r'
    · rw [hfind] at hsome
      cases hsome
    · refine ⟨⟨some r', sortRoles roles, saml⟩, ?_⟩
      rw [hunf, hfind]

/-- Witness for `prepareRoleWithSAML_exact_match`: requesting an ARN absent
    from a one-role list fails with the full list as payload. -/
theorem prepareRoleWithSAML_exact_match_witness :
    CacheFile.prepareRoleWithSAML [roleFoobar] "s" (some "arn:aws:iam::987654321:role/Foobiz")
        = .error (sortRoles [roleFoobar])
    ∧ (sortRoles [roleFoobar]).Perm [roleFoobar] :=
  (prepareRoleWithSAML_exact_match [roleFoobar] "s" "arn:aws:iam::987654321:role/Foobiz"
    (by decide)).1 (by decide)

/-- C8 counterexample: two distinct roles sharing one `roleArn` (different
    SAML providers).  The stable sort keeps their input order, so permuted
    inputs yield different `availableRoles` lists — the result is not
    independent of the assertion's value order. -/
theorem prepareRoleWithSAML_order_counterexample :
    CacheFile.prepareRoleWithSAML [dupArnRoleP, dupArnRoleQ] "s" none
        = .ok ⟨none, [dupArnRoleP, dupArnRoleQ], "s"⟩
    ∧ CacheFile.prepareRoleWithSAML [dupArnRoleQ, dupArnRoleP] "s" none
        = .ok ⟨none, [dupArnRoleQ, dupArnRoleP], "s"⟩
    ∧ List.Perm [dupArnRoleP, dupArnRoleQ] [dupArnRoleQ, dupArnRoleP]
    ∧ ([dupArnRoleP, dupArnRoleQ] : List Role) ≠ [dupArnRoleQ, dupArnRoleP] := by
  refine ⟨by decide, by decide, List.Perm.swap _ _ _, by decide⟩

/-- C8 (amended): with no requested ARN, `availableRoles` is the full parsed
    list sorted ascending by `roleArn`; when the parsed `roleArn`s are
    pairwise distinct the result is identical across permuted inputs (with
    duplicate `roleArn`s the stable sort keeps input order of the
    duplicates); `roleToAssume` is the single role when exactly one role
    exists and `null` when two or more exist. -/
theorem prepareRoleWithSAML_sorted_deterministic (l₁ l₂ : List Role) (saml : String)
    (hp : l₁.Perm l₂) (hnd : (l₁.map Role.roleArn).Nodup) :
    CacheFile.prepareRoleWithSAML l₁ saml none = CacheFile.prepareRoleWithSAML l₂ saml none
    ∧ List.Sorted roleLe (sortRoles l₁)
    ∧ (sortRoles l₁).Perm l₁
    ∧ (∀ r, sortRoles l₁ = [r] →
        CacheFile.prepareRoleWithSAML l₁ saml none = .ok ⟨some r, [r], saml⟩)
    ∧ (2 ≤ (sortRoles l₁).length →
        CacheFile.prepareRoleWithSAML l₁ saml none = .ok ⟨none, sortRoles l₁, saml⟩) := by
  have hunf : ∀ l : List Role, CacheFile.prepareRoleWithSAML l saml none
      = .ok ⟨if (sortRoles l).length = 1 then (sortRoles l).head? else none,
             sortRoles l, saml⟩ := by
    intro l
    simp [CacheFile.prepareRoleWithSAML, truthyStr]
  refine ⟨?_, sortRoles_sorted l₁, sortRoles_perm l₁, ?_, ?_⟩
  · rw [hunf, hunf, sortRoles_eq_of_perm l₁ l₂ hp hnd]
  · intro r hr
    rw [hunf, hr]
    rfl
  · intro hlen
    rw [hunf]
    have hne : (sortRoles l₁).length ≠ 1 := by omega
    simp [hne]

/-- Witness for `prepareRoleWithSAML_sorted_deterministic`: two roles with
    distinct ARNs given in either order produce the same result. -/
theorem prepareRoleWithSAML_sorted_deterministic_witness :
    CacheFile.prepareRoleWithSAML [roleFoobiz, roleFoobar] "s" none
        = CacheFile.prepareRoleWithSAML [roleFoobar, roleFoobiz] "s" none :=
  (prepareRoleWithSAML_sorted_deterministic [roleFoobiz, roleFoobar]
    [roleFoobar, roleFoobiz] "s" (List.Perm.swap _ _ _) (by decide)).1

/-- C9 counterexample: a `Role` attribute value whose principal ARN uses the
    `aws-us-gov` partition is silently dropped — the role pattern matches the
    value, but the principal pattern only accepts the standard `aws`
    partition, so non-standard partitions are not supported for the principal
    ARN and the value is not accepted. -/
theorem principal_partition_counterexample :
    Parser.parseRoleAttributes [govRoleAttr] none = []
    ∧ (Parser.scanRole govRoleAttr.data).isSome = true
    ∧ Parser.scanPrincipal govRoleAttr.data = none := by
  refine ⟨by decide, by decide, by decide⟩

/-- C9 (amended): role ARNs in the `aws`, `aws-us-gov` and `aws-cn` partitions
    are accepted, with the partition segment preserved verbatim in the
    produced `Role` — but only when the value's principal ARN uses the
    standard `aws` partition, since the principal pattern hardcodes `aws`;
    a value on which either pattern fails is silently skipped without
    failing the whole batch. -/
theorem role_partition_support (p : String) (dur : Option Nat) (bad : String)
    (rest : List String)
    (hp : p = "aws" ∨ p = "aws-us-gov" ∨ p = "aws-cn")
    (hbad : Parser.parseRoleValue bad dur = none) :
    Parser.parseRoleValue (mkPartitionAttr p) dur
        = some ⟨"Foobar", mkPartitionArn p,
                "arn:aws:iam::123456789:saml-provider/GSuite", dur⟩
    ∧ Parser.parseRoleAttributes (bad :: rest) dur = Parser.parseRoleAttributes rest dur := by
  constructor
  · rcases hp with rfl | rfl | rfl
    · rfl
    · rfl
    · rfl
  · simp [Parser.parseRoleAttributes, hbad]

/-- Witness for `role_partition_support`: the sovereign-China partition value
    is parsed with its partition preserved, and a malformed value is skipped
    without dropping the rest of the batch. -/
theorem role_partition_support_witness :
    Parser.parseRoleValue (mkPartitionAttr "aws-cn") (some 900)
        = some ⟨"Foobar", mkPartitionArn "aws-cn",
                "arn:aws:iam::123456789:saml-provider/GSuite", some 900⟩
    ∧ Parser.parseRoleAttributes ["garbage", mkPartitionAttr "aws-cn"] (some 900)
        = Parser.parseRoleAttributes [mkPartitionAttr "aws-cn"] (some 900) :=
  role_partition_support "aws-cn" (some 900) "garbage" [mkPartitionAttr "aws-cn"]
    (Or.inr (Or.inr rfl)) (by decide)

/-- With a truthy custom duration whose probe `send` succeeds, the invocation
    reduces to the final `send` with the same duration after the probe. -/
theorem assume_custom_ok (sts : CacheFile.StsOracle) (saml : String) (role : Role)
    (d : Nat) (c0 : CacheFile.StsCredentials) (hd : d ≠ 0)
    (he : sts (CacheFile.mkAssumeRequest saml role (some d)) = .ok c0) :
    CacheFile.assumeRoleWithSAML sts saml role (some d)
      = CacheFile.finalSend sts saml role (some d)
          [CacheFile.mkAssumeRequest saml role (some d)] false := by
  have htr : truthyOptNat (some d) = true := by simp [truthyOptNat, hd]
  simp [CacheFile.assumeRoleWithSAML, htr, he]

/-- A probe rejection that is not a `ValidationError` mentioning
    `durationSeconds` is rethrown after the single probe call. -/
theorem assume_custom_rethrow (sts : CacheFile.StsOracle) (saml : String) (role : Role)
    (d : Nat) (e : CacheFile.StsError) (hd : d ≠ 0)
    (he : sts (CacheFile.mkAssumeRequest saml role (some d)) = .error e)
    (hcode : ¬ (e.code = some "ValidationError"
        ∧ containsSub e.message "durationSeconds" = true)) :
    CacheFile.assumeRoleWithSAML sts saml role (some d)
      = ⟨.err e, [CacheFile.mkAssumeRequest saml role (some d)], false⟩ := by
  have htr : truthyOptNat (some d) = true := by simp [truthyOptNat, hd]
  have hcond : (!(e.code == some "ValidationError")
      || !(containsSub e.message "durationSeconds")) = true := by
    by_cases h1 : e.code = some "ValidationError"
    · have h2 : containsSub e.message "durationSeconds" = false := by
        cases h : containsSub e.message "durationSeconds"
        · rfl
        · exact absurd ⟨h1, h⟩ hcode
      simp [h2]
    · simp [h1]
  simp [CacheFile.assumeRoleWithSAML, htr, he, hcond]

/-- A duration validation rejection without an extractable maximum makes the
    invocation return `undefined` after the single probe call. -/
theorem assume_custom_nocap (sts : CacheFile.StsOracle) (saml : String) (role : Role)
    (d : Nat) (e : CacheFile.StsError) (hd : d ≠ 0)
    (he : sts (CacheFile.mkAssumeRequest saml role (some d)) = .error e)
    (hc1 : e.code = some "ValidationError")
    (hc2 : containsSub e.message "durationSeconds" = true)
    (hcap : extractCap e.message = none) :
    CacheFile.assumeRoleWithSAML sts saml role (some d)
      = ⟨.undefinedReturn, [CacheFile.mkAssumeRequest saml role (some d)], false⟩ := by
  have htr : truthyOptNat (some d) = true := by simp [truthyOptNat, hd]
  have hcond : (!(e.code == some "ValidationError")
      || !(containsSub e.message "durationSeconds")) = false := by
    simp [hc1, hc2]
  simp [CacheFile.assumeRoleWithSAML, htr, he, hcond, hcap]

/-- A duration validation rejection advertising maximum `m` leads to the final
    `send` with the capped duration and the warning logged. -/
theorem assume_custom_cap (sts : CacheFile.StsOracle) (saml : String) (role : Role)
    (d m : Nat) (e : CacheFile.StsError) (hd : d ≠ 0)
    (he : sts (CacheFile.mkAssumeRequest saml role (some d)) = .error e)
    (hc1 : e.code = some "ValidationError")
    (hc2 : containsSub e.message "durationSeconds" = true)
    (hcap : extractCap e.message = some m) :
    CacheFile.assumeRoleWithSAML sts saml role (some d)
      = CacheFile.finalSend sts saml role (some m)
          [CacheFile.mkAssumeRequest saml role (some d)] true := by
  have htr : truthyOptNat (some d) = true := by simp [truthyOptNat, hd]
  have hcond : (!(e.code == some "ValidationError")
      || !(containsSub e.message "durationSeconds")) = false := by
    simp [hc1, hc2]
  simp [CacheFile.assumeRoleWithSAML, htr, he, hcond, hcap]

/-- Without a truthy custom duration the invocation is the single final `send`
    carrying the role's own (possibly absent) session duration. -/
theorem assume_none_eq (sts : CacheFile.StsOracle) (saml : String) (role : Role) :
    CacheFile.assumeRoleWithSAML sts saml role none
      = CacheFile.finalSend sts saml role role.sessionDuration [] false := by
  simp [CacheFile.assumeRoleWithSAML, truthyOptNat]

/-- C3: duration precedence.  With a (truthy) caller-supplied duration the
    first exchange request carries it as `DurationSeconds`, taking priority
    over `role.sessionDuration`; with none supplied, the single request
    carries the role's IdP-declared duration when present and no duration
    field at all when absent, so the remote service applies its own
    default. -/
theorem assumeRoleWithSAML_duration_precedence (sts : CacheFile.StsOracle)
    (saml : String) (role : Role) (d sd : Nat) (hd : d ≠ 0) :
    ((CacheFile.assumeRoleWithSAML sts saml role (some d)).calls.head?
        = some (CacheFile.mkAssumeRequest saml role (some d)))
    ∧ (role.sessionDuration = some sd →
        (CacheFile.assumeRoleWithSAML sts saml role none).calls
          = [CacheFile.mkAssumeRequest saml role (some sd)])
    ∧ (role.sessionDuration = none →
        (CacheFile.assumeRoleWithSAML sts saml role none).calls
          = [CacheFile.mkAssumeRequest saml role none]) := by
  refine ⟨?_, ?_, ?_⟩
  · rcases he : sts (CacheFile.mkAssumeRequest saml role (some d)) with e | c0
    · by_cases hcode : e.code = some "ValidationError"
          ∧ containsSub e.message "durationSeconds" = true
      · rcases hcap : extractCap e.message with _ | m
        · rw [assume_custom_nocap sts saml role d e hd he hcode.1 hcode.2 hcap]
          rfl
        · rw [assume_custom_cap sts saml role d m e hd he hcode.1 hcode.2 hcap,
            (finalSend_calls sts saml role (some m)
              [CacheFile.mkAssumeRequest saml role (some d)] true).1]
          rfl
      · rw [assume_custom_rethrow sts saml role d e hd he hcode]
        rfl
    · rw [assume_custom_ok sts saml role d c0 hd he,
        (finalSend_calls sts saml role (some d)
          [CacheFile.mkAssumeRequest saml role (some d)] false).1]
      rfl
  · intro hrole
    rw [assume_none_eq sts saml role,
      (finalSend_calls sts saml role role.sessionDuration [] false).1, hrole]
    rfl
  · intro hrole
    rw [assume_none_eq sts saml role,
      (finalSend_calls sts saml role role.sessionDuration [] false).1, hrole]
    rfl

/-- Witness for `assumeRoleWithSAML_duration_precedence`: a caller override of
    `900` wins over the role's declared `10000`; without an override the
    request carries the role's `10000`; and with neither the request carries
    no duration field. -/
theorem assumeRoleWithSAML_duration_precedence_witness :
    ((CacheFile.assumeRoleWithSAML stsAlwaysOk "saml" roleWithIdpDuration (some 900)).calls.head?
        = some (CacheFile.mkAssumeRequest "saml" roleWithIdpDuration (some 900)))
    ∧ ((CacheFile.assumeRoleWithSAML stsAlwaysOk "saml" roleWithIdpDuration none).calls
        = [CacheFile.mkAssumeRequest "saml" roleWithIdpDuration (some 10000)])
    ∧ ((CacheFile.assumeRoleWithSAML stsAlwaysOk "saml" roleFoobar none).calls
        = [CacheFile.mkAssumeRequest "saml" roleFoobar none]) :=
  ⟨(assumeRoleWithSAML_duration_precedence stsAlwaysOk "saml" roleWithIdpDuration
      900 10000 (by decide)).1,
   (assumeRoleWithSAML_duration_precedence stsAlwaysOk "saml" roleWithIdpDuration
      900 10000 (by decide)).2.1 rfl,
   (assumeRoleWithSAML_duration_precedence stsAlwaysOk "saml" roleFoobar
      900 10000 (by decide)).2.2 rfl⟩

/-- C2 counterexample: a `ValidationError` whose message mentions
    `durationSeconds` but advertises no numeric maximum is not propagated —
    the invocation completes with JavaScript `undefined` (the bare `return;`),
    swallowing the error. -/
theorem swallowed_validation_error_counterexample :
    noCapErr.code = some "ValidationError"
    ∧ containsSub noCapErr.message "durationSeconds" = true
    ∧ extractCap noCapErr.message = none
    ∧ CacheFile.assumeRoleWithSAML stsNoCapOracle "saml" roleFoobar (some 900)
        = ⟨.undefinedReturn, [CacheFile.mkAssumeRequest "saml" roleFoobar (some 900)],
           false⟩ := by
  refine ⟨rfl, by decide, by decide, by decide⟩

/-- C2 (amended): a rejection of the probe call that is not a validation error
    mentioning the duration field propagates unmodified after that single
    call, with no retry; but a validation error that does mention the duration
    field while yielding no extractable numeric maximum is swallowed — the
    invocation returns `undefined` instead of raising, again with no retry. -/
theorem assumeRoleWithSAML_error_propagation (sts : CacheFile.StsOracle)
    (saml : String) (role : Role) (d : Nat) (e : CacheFile.StsError) (hd : d ≠ 0)
    (he : sts (CacheFile.mkAssumeRequest saml role (some d)) = .error e) :
    (¬ (e.code = some "ValidationError"
          ∧ containsSub e.message "durationSeconds" = true) →
        CacheFile.assumeRoleWithSAML sts saml role (some d)
          = ⟨.err e, [CacheFile.mkAssumeRequest saml role (some d)], false⟩)
    ∧ (e.code = some "ValidationError" → containsSub e.message "durationSeconds" = true →
        extractCap e.message = none →
        CacheFile.assumeRoleWithSAML sts saml role (some d)
          = ⟨.undefinedReturn, [CacheFile.mkAssumeRequest saml role (some d)], false⟩) :=
  ⟨fun hcode => assume_custom_rethrow sts saml role d e hd he hcode,
   fun hc1 hc2 hcap => assume_custom_nocap sts saml role d e hd he hc1 hc2 hcap⟩

/-- Witness for `assumeRoleWithSAML_error_propagation`: an access-denied
    rejection surfaces unmodified after one call. -/
theorem assumeRoleWithSAML_error_propagation_witness :
    CacheFile.assumeRoleWithSAML stsDenyOracle "saml" roleFoobar (some 900)
      = ⟨.err accessDeniedErr, [CacheFile.mkAssumeRequest "saml" roleFoobar (some 900)],
         false⟩ :=
  (assumeRoleWithSAML_error_propagation stsDenyOracle "saml" roleFoobar 900
      accessDeniedErr (by decide) rfl).1 (by decide)

/-- C1 counterexample: with a caller-supplied duration whose first exchange
    request is accepted, the invocation still makes a second exchange call —
    the probe's accepted bundle is discarded and two calls occur, not one. -/
theorem probe_double_call_counterexample :
    stsAlwaysOk (CacheFile.mkAssumeRequest "saml" roleFoobar (some 900)) = .ok stsCreds
    ∧ (CacheFile.assumeRoleWithSAML stsAlwaysOk "saml" roleFoobar (some 900)).calls.length = 2
    ∧ (CacheFile.assumeRoleWithSAML stsAlwaysOk "saml" roleFoobar (some 900)).calls.length ≠ 1 := by
  refine ⟨rfl, by decide, by decide⟩

/-- C1 (amended): call protocol of `assumeRoleWithSAML`.  At most two exchange
    calls ever occur.  Without a caller-supplied duration, exactly one call is
    made.  With a (truthy) caller-supplied duration, a probe call carrying it
    is always followed by a second call: if the probe is accepted its bundle
    is discarded, the second call repeats the same duration and that second
    call's bundle is the one returned; if the probe is rejected with a
    validation error advertising a maximum duration, the warning is logged and
    the second call carries the extracted maximum, whose accepted bundle is
    returned to the caller without raising. -/
theorem assumeRoleWithSAML_call_protocol (sts : CacheFile.StsOracle) (saml : String)
    (role : Role) (dur : Option Nat) (d m : Nat) (e : CacheFile.StsError)
    (creds : CacheFile.StsCredentials) (hd : d ≠ 0) :
    ((CacheFile.assumeRoleWithSAML sts saml role dur).calls.length ≤ 2)
    ∧ ((CacheFile.assumeRoleWithSAML sts saml role none).calls
        = [CacheFile.mkAssumeRequest saml role role.sessionDuration])
    ∧ (sts (CacheFile.mkAssumeRequest saml role (some d)) = .ok creds →
        CacheFile.assumeRoleWithSAML sts saml role (some d)
          = ⟨.ok (CacheFile.mkSession role saml creds),
             [CacheFile.mkAssumeRequest saml role (some d),
              CacheFile.mkAssumeRequest saml role (some d)], false⟩)
    ∧ (sts (CacheFile.mkAssumeRequest saml role (some d)) = .error e →
        e.code = some "ValidationError" → containsSub e.message "durationSeconds" = true →
        extractCap e.message = some m →
        sts (CacheFile.mkAssumeRequest saml role (some m)) = .ok creds →
        CacheFile.assumeRoleWithSAML sts saml role (some d)
          = ⟨.ok (CacheFile.mkSession role saml creds),
             [CacheFile.mkAssumeRequest saml role (some d),
              CacheFile.mkAssumeRequest saml role (some m)], true⟩) := by
  refine ⟨?_, ?_, ?_, ?_⟩
  · rcases dur with _ | d'
    · rw [assume_none_eq sts saml role,
        (finalSend_calls sts saml role role.sessionDuration [] false).1]
      simp
    · by_cases hd' : d' = 0
      · subst hd'
        have : truthyOptNat (some 0) = false := by decide
        simp only [CacheFile.assumeRoleWithSAML, this, Bool.false_eq_true, if_false]
        rw [(finalSend_calls sts saml role role.sessionDuration [] false).1]
        simp
      · rcases he : sts (CacheFile.mkAssumeRequest saml role (some d')) with e' | c0
        · by_cases hcode : e'.code = some "ValidationError"
              ∧ containsSub e'.message "durationSeconds" = true
          · rcases hcap : extractCap e'.message with _ | m'
            · rw [assume_custom_nocap sts saml role d' e' hd' he hcode.1 hcode.2 hcap]
              simp
            · rw [assume_custom_cap sts saml role d' m' e' hd' he hcode.1 hcode.2 hcap,
                (finalSend_calls sts saml role (some m')
                  [CacheFile.mkAssumeRequest saml role (some d')] true).1]
              simp
          · rw [assume_custom_rethrow sts saml role d' e' hd' he hcode]
            simp
        · rw [assume_custom_ok sts saml role d' c0 hd' he,
            (finalSend_calls sts saml role (some d')
              [CacheFile.mkAssumeRequest saml role (some d')] false).1]
          simp
  · rw [assume_none_eq sts saml role,
      (finalSend_calls sts saml role role.sessionDuration [] false).1]
    rfl
  · intro he
    rw [assume_custom_ok sts saml role d creds hd he,
      finalSend_ok sts saml role (some d) _ false creds he]
    rfl
  · intro he hc1 hc2 hcap hm
    rw [assume_custom_cap sts saml role d m e hd he hc1 hc2 hcap,
      finalSend_ok sts saml role (some m) _ true creds hm]
    rfl

/-- Witness for `assumeRoleWithSAML_call_protocol` at the capped-duration
    oracle: requesting `60000` seconds is rejected with a cap of `43200`,
    exactly two calls occur, the second carrying `43200`, and the call
    succeeds. -/
theorem assumeRoleWithSAML_call_protocol_witness :
    CacheFile.assumeRoleWithSAML stsCapOracle "saml" roleFoobar (some 60000)
      = ⟨.ok (CacheFile.mkSession roleFoobar "saml" stsCreds),
         [CacheFile.mkAssumeRequest "saml" roleFoobar (some 60000),
          CacheFile.mkAssumeRequest "saml" roleFoobar (some 43200)], true⟩ :=
  (assumeRoleWithSAML_call_protocol stsCapOracle "saml" roleFoobar (some 60000)
      60000 43200 capErr stsCreds (by decide)).2.2.2
    rfl rfl (by decide) (by decide) rfl
